import Mathlib

/-!
Verification of the Evidence Graph Validation Engine of the
clinical-evidence-validator repository.

The definitions below are a shallow embedding of the Python sources:
  - app/validator/stato_loader.py  (graph builder, SHACL adapter, report parser)
  - app/validator/scorer.py        (scoring engine)
  - app/validator/fhir_validator.py (resource-model compliance)
  - app/main.py                    (pipeline wiring)
Numbers that Python handles as floats are modelled as rationals; Python
dictionaries whose key sets matter are modelled with explicit key-lookup
functions; Python exceptions are modelled with Except.
-/

namespace OCEV

/-! ## Python string primitives, modelled over character lists -/

/-- Membership of one character list at the head of another,
as used by the Python substring test. -/
def startsWithChars : List Char → List Char → Bool
  | [], _ => true
  | _ :: _, [] => false
  | p :: ps, c :: cs => p == c && startsWithChars ps cs

/-- Python `pat in s` on character lists: true when the first list occurs
contiguously inside the second. -/
def containsSub : List Char → List Char → Bool
  | pat, [] => pat.isEmpty
  | pat, c :: cs => startsWithChars pat (c :: cs) || containsSub pat cs

/-- Python `pat in s` for strings. -/
def strContains (s pat : String) : Bool :=
  containsSub pat.toList s.toList

/-- Python `s.lower()` (ASCII case folding suffices for the keywords used). -/
def pyLower (s : String) : String :=
  String.mk (s.toList.map Char.toLower)

/-- Helper for `str.split` on a newline: accumulate the current segment. -/
def splitLinesAux : List Char → List Char → List (List Char)
  | [], acc => [acc.reverse]
  | c :: cs, acc =>
      if c = '\n' then acc.reverse :: splitLinesAux cs []
      else splitLinesAux cs (c :: acc)

/-- Python `report_text.split('\n')`: splits on every newline and keeps
empty segments, exactly as Python does. -/
def pyLines (s : String) : List String :=
  (splitLinesAux s.toList []).map (fun l => String.mk l)

/-- Python `line.strip()`: drop leading and trailing whitespace. -/
def pyStrip (s : String) : String :=
  String.mk (((s.toList.dropWhile Char.isWhitespace).reverse.dropWhile
    Char.isWhitespace).reverse)

/-! ## Diagnostic report parser — StatoLoader._parse_shacl_report -/

/-- The dictionary returned by `StatoLoader._parse_shacl_report`
(stato_loader.py lines 186-190): keys "violations", "total", "passing". -/
structure ParsedReport where
  violations : List String
  total : Int
  passing : Int
deriving DecidableEq, Repr

/-- The line classification of `_parse_shacl_report` (stato_loader.py line 179):
a line is a violation marker when it contains the literal phrase
"Constraint Violation" or the literal phrase "Message:". -/
def isViolationLine (l : String) : Bool :=
  strContains l "Constraint Violation" || strContains l "Message:"

/-- `StatoLoader._parse_shacl_report` (stato_loader.py lines 173-190):
split the raw report text on newlines, collect the stripped violation-marker
lines, estimate `total = max(len(violations) + 5, 10)` and
`passing = total - len(violations)`. -/
def parseShaclReport (t : String) : ParsedReport :=
  let vs := ((pyLines t).filter isViolationLine).map pyStrip
  let total : Int := max ((vs.length : Int) + 5) 10
  { violations := vs, total := total, passing := total - vs.length }

/-! ## Scoring engine — EvidenceScorer -/

/-- Python `parsed.get(key, default)` on the parsed-report dictionary.
The dictionary built by `_parse_shacl_report` holds its integer entries
under the keys "total" and "passing"; any other key falls back to the
supplied default. -/
def parsedGetInt (p : ParsedReport) (key : String) (dflt : Int) : Int :=
  if key = "total" then p.total
  else if key = "passing" then p.passing
  else dflt

/-- `EvidenceScorer.calculate_integrity` (scorer.py lines 10-19): reads
`parsed.get("total_constraints", 10)` and `parsed.get("passing_constraints", 0)`
from the parsed-report dictionary, returns 0 when the total is 0 and the
pass rate otherwise. -/
def calculateIntegrity (p : ParsedReport) : ℚ :=
  let total := parsedGetInt p "total_constraints" 10
  let passing := parsedGetInt p "passing_constraints" 0
  if total = 0 then 0 else (passing : ℚ) / (total : ℚ)

/-- The FAIR-violation test of `EvidenceScorer.calculate_fairness`
(scorer.py lines 27-30): the lower-cased violation text contains
"license", "identifier" or "version". -/
def isFairViolation (v : String) : Bool :=
  strContains (pyLower v) "license" || strContains (pyLower v) "identifier" ||
    strContains (pyLower v) "version"

/-- `EvidenceScorer.calculate_fairness` (scorer.py lines 21-33):
`max(0, 1 - 0.33 * fairViolationCount)`. -/
def calculateFairness (p : ParsedReport) : ℚ :=
  let fv := p.violations.filter isFairViolation
  max 0 (1 - (fv.length : ℚ) * (33 / 100))

/-- `EvidenceScorer.calculate_overall_score` (scorer.py lines 35-37), the same
expression is inlined in app/main.py lines 66, 109 and 158. -/
def calculateOverallScore (integrity fairness fhirCompliance : ℚ) : ℚ :=
  (4 / 10) * integrity + (3 / 10) * fairness + (3 / 10) * fhirCompliance

/-! ## Evidence records

One structure for the JSON dictionaries flowing through the pipeline,
with exactly the fields the source reads.  Optional dictionary keys are
Option; nested `{"value": ...}` blocks keep their own structure so that the
source's two-level `.get` chains are mirrored faithfully. -/

/-- One entry of `statisticalTest.coding`; only its "code" key is read
(stato_loader.py line 60). -/
structure Coding where
  code : Option String
deriving DecidableEq, Repr

/-- A `{"value": ...}` block holding a number (statistic entries, pValue). -/
structure NumBlock where
  value : Option ℚ
deriving DecidableEq, Repr

/-- A `{"value": ...}` block holding an integer (sampleSize). -/
structure IntBlock where
  value : Option Int
deriving DecidableEq, Repr

/-- A `{"value": ...}` block holding a boolean (outcome, after Python
`bool(...)` coercion). -/
structure BoolBlock where
  value : Option Bool
deriving DecidableEq, Repr

/-- One entry of the `identifier` list; only its "value" key is read
(stato_loader.py line 164). -/
structure IdentifierEntry where
  value : Option String
deriving DecidableEq, Repr

/-- A raw FHIR Evidence dictionary as consumed by `validate_with_shacl`
(stato_loader.py) and `FHIRValidator` (fhir_validator.py).  The
`parsesAsEvidence` flag abstracts whether the external fhir.resources
library accepts the dictionary in `Evidence.parse_obj` (fhir_validator.py
line 38): the pydantic parser is an external collaborator, so its verdict
is carried as data. -/
structure FhirRecord where
  resourceType : String
  status : Option String
  statisticalTest : Option (List Coding)
  statistic : Option (List NumBlock)
  pValue : Option NumBlock
  sampleSize : Option IntBlock
  varEntries : List String
  outcome : Option BoolBlock
  coefficient : List ℚ
  oddsRatios : List ℚ
  timeToEvent : List ℚ
  eventStatus : List Bool
  license : Option String
  identifier : Option (List IdentifierEntry)
  version : Option String
  parsesAsEvidence : Bool
deriving DecidableEq, Repr

/-- Python truthiness of an optional string: a missing key and the empty
string are falsy. -/
def pyTruthyStr : Option String → Bool
  | none => false
  | some s => s != ""

/-! ## Resource-model compliance — FHIRValidator -/

/-- Score contribution of one boolean check. -/
def boolScore (b : Bool) : ℚ := if b then 1 else 0

/-- Check 2 of `_validate_single_resource` (fhir_validator.py line 48):
`evidence.statisticalTest and len(evidence.statisticalTest) > 0`. -/
def hasNonemptyStatTest (r : FhirRecord) : Bool :=
  match r.statisticalTest with
  | some l => !l.isEmpty
  | none => false

/-- Check 3 of `_validate_single_resource` (fhir_validator.py line 52):
`evidence.sampleSize and evidence.sampleSize.value` — a value of 0 is falsy. -/
def hasTruthySampleSize (r : FhirRecord) : Bool :=
  match r.sampleSize with
  | some b =>
    match b.value with
    | some n => n != 0
    | none => false
  | none => false

/-- Check 4 of `_validate_single_resource` (fhir_validator.py lines 56-59):
pValue present, its value not None, and `0 <= value <= 1`. -/
def hasValidPValue (r : FhirRecord) : Bool :=
  match r.pValue with
  | some b =>
    match b.value with
    | some v => decide (0 ≤ v ∧ v ≤ 1)
    | none => false
  | none => false

/-- `FHIRValidator._validate_single_resource` (fhir_validator.py lines 34-74):
if `Evidence.parse_obj` raises, the record scores 0.0; otherwise five checks
each worth one point out of five. -/
def validateSingleResource (r : FhirRecord) : ℚ :=
  if r.parsesAsEvidence then
    (boolScore (pyTruthyStr r.status) + boolScore (hasNonemptyStatTest r) +
      boolScore (hasTruthySampleSize r) + boolScore (hasValidPValue r) +
      boolScore (r.resourceType == "Evidence")) / 5
  else 0

/-- Sum of the per-record scores. -/
def sumScores (rs : List FhirRecord) : ℚ :=
  (rs.map validateSingleResource).sum

/-- `FHIRValidator.validate_fhir_resources` (fhir_validator.py lines 22-32):
0.0 on an empty list, otherwise the mean per-record score. -/
def validateFhirResources (rs : List FhirRecord) : ℚ :=
  if rs.isEmpty then 0 else sumScores rs / (rs.length : ℚ)

/-- Follows the spec's words (§4.5 Resource-Model Compliance), stated for
comparison with the source implementation `validateSingleResource`: for each
record four checks — a declared status is present, a statistic or p-value
block is present, both an identifier and a license are present, and the
record declares the expected resource type. -/
def specSingleResourceChecks (r : FhirRecord) : ℚ :=
  (boolScore r.status.isSome +
    boolScore ((match r.statistic with
      | some (_ :: _) => true
      | _ => false) || r.pValue.isSome) +
    boolScore ((match r.identifier with
      | some (_ :: _) => true
      | _ => false) && r.license.isSome) +
    boolScore (r.resourceType == "Evidence")) / 4

/-- Follows the spec's words (§4.5): average the per-record fraction of the
four checks across all records; 0 if there are no records. -/
def specResourceModelCompliance (rs : List FhirRecord) : ℚ :=
  if rs.isEmpty then 0
  else (rs.map specSingleResourceChecks).sum / (rs.length : ℚ)

/-! ## Graph builder — StatoLoader.validate_with_shacl and helpers

The rdflib data graph is modelled as a list of triples.  Record number `i`
receives the subject IRI `http://example.org/evidence/i`, kept here as
the index `i` itself.  Python exceptions raised while navigating the raw
dictionaries (indexing `[0]` into an empty list that a present key maps to)
are modelled with Except. -/

/-- A Python exception escaping the validation run. -/
inductive PyErr where
  | indexError
  | fileNotFound (msg : String)
deriving DecidableEq, Repr

/-- The object position of a triple. -/
inductive RDFObj where
  | classIri (s : String)
  | strLit (s : String)
  | fltLit (q : ℚ)
  | intLit (n : Int)
  | boolLit (b : Bool)
deriving DecidableEq, Repr

/-- One rdflib triple: subject index, property name, object. -/
structure Triple where
  subj : Nat
  pred : String
  obj : RDFObj
deriving DecidableEq, Repr

/-- The test-type lookup of stato_loader.py line 60:
`resource.get("statisticalTest", {}).get("coding", [{}])[0].get("code")`.
A missing statisticalTest key defaults to an empty dictionary whose
"coding" default is `[{}]`, so the code is None; a present but empty
coding list makes the `[0]` index raise IndexError. -/
def evidenceType (r : FhirRecord) : Except PyErr (Option String) :=
  match r.statisticalTest with
  | none => .ok none
  | some [] => .error .indexError
  | some (c :: _) => .ok c.code

/-- `StatoLoader._add_ttest_properties` (stato_loader.py lines 100-113):
`resource.get("statistic", [{}])[0]` (IndexError on a present empty list),
then the statistic value, one edge per variable, and the p-value if present. -/
def addTtestProperties (i : Nat) (r : FhirRecord) : Except PyErr (List Triple) :=
  match r.statistic with
  | some [] => .error .indexError
  | some (s :: _) =>
    .ok ((match s.value with
      | some v => [⟨i, "has_dependent_variable", .fltLit v⟩]
      | none => []) ++
      r.varEntries.map (fun g => ⟨i, "has_independent_variable", .strLit g⟩) ++
      (match r.pValue with
        | some p =>
          match p.value with
          | some v => [⟨i, "has_p_value", .fltLit v⟩]
          | none => []
        | none => []))
  | none =>
    .ok (r.varEntries.map (fun g => ⟨i, "has_independent_variable", .strLit g⟩) ++
      (match r.pValue with
        | some p =>
          match p.value with
          | some v => [⟨i, "has_p_value", .fltLit v⟩]
          | none => []
        | none => []))

/-- `StatoLoader._add_chisquare_properties` (stato_loader.py lines 115-125):
one edge per categorical variable, the sample size if truthy (non-zero). -/
def addChisquareProperties (i : Nat) (r : FhirRecord) : List Triple :=
  r.varEntries.map (fun cat => ⟨i, "has_dependent_variable", .strLit cat⟩) ++
    (match r.sampleSize with
      | some b =>
        match b.value with
        | some n => if n ≠ 0 then [⟨i, "has_sample_size", .intLit n⟩] else []
        | none => []
      | none => [])

/-- `StatoLoader._add_logistic_properties` (stato_loader.py lines 127-142):
the boolean outcome if its value is not None, one edge per coefficient and
per odds ratio. -/
def addLogisticProperties (i : Nat) (r : FhirRecord) : List Triple :=
  (match r.outcome with
    | some b =>
      match b.value with
      | some v => [⟨i, "has_dependent_variable", .boolLit v⟩]
      | none => []
    | none => []) ++
    r.coefficient.map (fun c => ⟨i, "has_coefficient", .fltLit c⟩) ++
    r.oddsRatios.map (fun v => ⟨i, "has_odds_ratio", .fltLit v⟩)

/-- `StatoLoader._add_survival_properties` (stato_loader.py lines 144-154):
one time-to-event edge and one event-status edge per value. -/
def addSurvivalProperties (i : Nat) (r : FhirRecord) : List Triple :=
  r.timeToEvent.map (fun t => ⟨i, "has_time_variable", .fltLit t⟩) ++
    r.eventStatus.map (fun e => ⟨i, "has_event_status", .boolLit e⟩)

/-- The first identifier value of stato_loader.py line 164:
`resource.get("identifier", [{}])[0].get("value")`. -/
def identFirstValue (r : FhirRecord) : Except PyErr (Option String) :=
  match r.identifier with
  | none => .ok none
  | some [] => .error .indexError
  | some (x :: _) => .ok x.value

/-- The license triple of `_add_fair_metadata` (stato_loader.py lines
158-161), added only when the license value is truthy. -/
def licenseTriples (i : Nat) (r : FhirRecord) : List Triple :=
  match r.license with
  | some s => if s ≠ "" then [⟨i, "has_license", .strLit s⟩] else []
  | none => []

/-- The identifier triple of `_add_fair_metadata` (stato_loader.py lines
163-166), from the first identifier value when truthy. -/
def identifierValueTriples (i : Nat) (idv : Option String) : List Triple :=
  match idv with
  | some s => if s ≠ "" then [⟨i, "has_identifier", .strLit s⟩] else []
  | none => []

/-- The version triple of `_add_fair_metadata` (stato_loader.py lines
168-171), added only when the version value is truthy. -/
def versionTriples (i : Nat) (r : FhirRecord) : List Triple :=
  match r.version with
  | some s => if s ≠ "" then [⟨i, "has_version", .strLit s⟩] else []
  | none => []

/-- `StatoLoader._add_fair_metadata` (stato_loader.py lines 156-171):
license, first identifier value, and version, each added only when truthy. -/
def addFairMetadata (i : Nat) (r : FhirRecord) : Except PyErr (List Triple) :=
  match identFirstValue r with
  | .error e => .error e
  | .ok idv =>
    .ok (licenseTriples i r ++ identifierValueTriples i idv ++ versionTriples i r)

/-- The per-type branch of `validate_with_shacl` (stato_loader.py lines
62-74): a type assertion plus type-specific properties for the four known
test codes; any other evidence type adds nothing. -/
def typedTriples (i : Nat) (r : FhirRecord) (et : Option String) :
    Except PyErr (List Triple) :=
  if et = some "t-test" then
    match addTtestProperties i r with
    | .error e => .error e
    | .ok ps => .ok (⟨i, "rdf:type", .classIri "STATO_0000176"⟩ :: ps)
  else if et = some "chi-square" then
    .ok (⟨i, "rdf:type", .classIri "STATO_0000149"⟩ :: addChisquareProperties i r)
  else if et = some "logistic-regression" then
    .ok (⟨i, "rdf:type", .classIri "STATO_0000323"⟩ :: addLogisticProperties i r)
  else if et = some "kaplan-meier" then
    .ok (⟨i, "rdf:type", .classIri "STATO_0000424"⟩ :: addSurvivalProperties i r)
  else .ok []

/-- All triples contributed by record number `i` in the loop of
`validate_with_shacl` (stato_loader.py lines 56-77). -/
def recordTriples (i : Nat) (r : FhirRecord) : Except PyErr (List Triple) :=
  match evidenceType r with
  | .error e => .error e
  | .ok et =>
    match typedTriples i r et with
    | .error e => .error e
    | .ok ts =>
      match addFairMetadata i r with
      | .error e => .error e
      | .ok fair => .ok (ts ++ fair)

/-- The enumerate loop of `validate_with_shacl`, starting at index `i`. -/
def buildGraphAux : Nat → List FhirRecord → Except PyErr (List Triple)
  | _, [] => .ok []
  | i, r :: rest =>
    match recordTriples i r with
    | .error e => .error e
    | .ok ts =>
      match buildGraphAux (i + 1) rest with
      | .error e => .error e
      | .ok rest' => .ok (ts ++ rest')

/-- The data graph built by `validate_with_shacl` (stato_loader.py
lines 54-77) before the pyshacl call. -/
def buildDataGraph (rs : List FhirRecord) : Except PyErr (List Triple) :=
  buildGraphAux 0 rs

/-! ## Pipeline — app/main.py and StatoLoader startup -/

/-- The score set assembled by the endpoints of app/main.py. -/
structure Scores where
  integrity : ℚ
  fairness : ℚ
  fhirCompliance : ℚ
  overall : ℚ
deriving DecidableEq, Repr

/-- `StatoLoader._load_shacl_rules` (stato_loader.py lines 43-48): raises
FileNotFoundError when the SHACL rules file is absent.  The filesystem is
external, so its state is passed in as a flag. -/
def loadShaclRules (shaclRulesExists : Bool) : Except PyErr Unit :=
  if shaclRulesExists then .ok ()
  else .error (.fileNotFound "SHACL rules not found at app/validator/shacl_rules.ttl")

/-- One validation run as wired in `validate_fhir` (app/main.py lines
92-130): build the data graph, hand the external engine's raw report to the
parser, and compute the four scores.  The raw report text is a parameter
because the constraint engine (pyshacl) is an external collaborator. -/
def runValidation (records : List FhirRecord) (rawReport : String) :
    Except PyErr Scores :=
  match buildDataGraph records with
  | .error e => .error e
  | .ok _ =>
    let p := parseShaclReport rawReport
    let i := calculateIntegrity p
    let f := calculateFairness p
    let c := validateFhirResources records
    .ok { integrity := i, fairness := f, fhirCompliance := c,
          overall := calculateOverallScore i f c }

/-- The whole service: `StatoLoader.__init__` runs at module import
(app/main.py line 31), so a validation run is reachable only after the
SHACL rules loaded successfully. -/
def serveValidation (shaclRulesExists : Bool) (records : List FhirRecord)
    (rawReport : String) : Except PyErr Scores :=
  match loadShaclRules shaclRulesExists with
  | .error e => .error e
  | .ok _ => runValidation records rawReport

/-! ## Concrete inputs used in the theorems below -/

/-- A raw pyshacl report with exactly seven violation-marker lines
(spec §8, Scenario 3). -/
def sevenViolationReport : String :=
  "Validation Report\nConforms: False\nConstraint Violation one\nConstraint Violation two\nConstraint Violation three\nConstraint Violation four\nConstraint Violation five\nConstraint Violation six\nConstraint Violation seven"

/-- A raw report whose three violation lines each mention a FAIR keyword. -/
def threeFairText : String :=
  "Message: missing license\nMessage: missing identifier\nMessage: missing version"

/-- A parsed report with exactly four FAIR-related violation texts. -/
def fourFairReport : ParsedReport :=
  { violations := ["Message: missing license", "Message: missing identifier",
      "Message: missing version", "Constraint Violation on License field"],
    total := 14, passing := 10 }

/-- The raw text pyshacl emits for a conforming run: no violation markers. -/
def conformsReport : String := "Validation Report\nConforms: True\n"

/-- A record dictionary with every optional key absent, accepted by the
pydantic parser; fields are overridden below per scenario. -/
def baseRecord : FhirRecord :=
  { resourceType := "Evidence", status := none, statisticalTest := none,
    statistic := none, pValue := none, sampleSize := none, varEntries := [],
    outcome := none, coefficient := [], oddsRatios := [], timeToEvent := [],
    eventStatus := [], license := none, identifier := none, version := none,
    parsesAsEvidence := true }

/-- A record whose test-type code "anova" is not one of the four known
types, and which carries no FAIR metadata. -/
def unknownTypeRecord : FhirRecord :=
  { baseRecord with
    status := some "active",
    statisticalTest := some [⟨some "anova"⟩] }

/-- A record with status, a statistical test, a statistic block, an
identifier and a license, but no sample size and no p-value. -/
def c2Record : FhirRecord :=
  { baseRecord with
    status := some "active",
    statisticalTest := some [⟨some "t-test"⟩],
    statistic := some [⟨some 2⟩],
    identifier := some [⟨some "doi-10.1000-x"⟩],
    license := some "CC-BY" }

/-- A record the pydantic Evidence parser rejects. -/
def malformedRecord : FhirRecord :=
  { baseRecord with parsesAsEvidence := false }

/-! ## Helper lemmas -/

/-- A key other than "total" and "passing" falls back to the default. -/
theorem parsedGetInt_miss (p : ParsedReport) (key : String) (d : Int)
    (h1 : key ≠ "total") (h2 : key ≠ "passing") : parsedGetInt p key d = d := by
  unfold parsedGetInt
  rw [if_neg h1, if_neg h2]

/-- `calculate_integrity` looks up "total_constraints" and
"passing_constraints" in a dictionary whose keys are "total" and "passing",
so it always computes 0 / 10. -/
theorem calculateIntegrity_always_zero (p : ParsedReport) :
    calculateIntegrity p = 0 := by
  unfold calculateIntegrity
  rw [parsedGetInt_miss _ _ _ (by decide) (by decide),
    parsedGetInt_miss _ _ _ (by decide) (by decide)]
  norm_num

/-- The fairness score as a function of the FAIR-violation count. -/
theorem fairness_formula (p : ParsedReport) :
    calculateFairness p =
      max 0 (1 - ((p.violations.filter isFairViolation).length : ℚ) * (33 / 100)) :=
  rfl

/-! ## Claim theorems -/

/-- C1: the Integrity sub-score is claimed to equal
passingConstraints / totalConstraints of the run's ConstraintDiagnostics,
with 5 / 12 for a raw report of seven violation lines.  The code computes
the diagnostics as claimed (total 12, passing 5), but `calculate_integrity`
reads the keys "total_constraints" and "passing_constraints" from the
parsed-report dictionary whose keys are "total" and "passing", so both
lookups miss, fall back to the defaults 10 and 0, and the score is 0
instead of 5 / 12. -/
theorem claim_c1_integrity_key_mismatch :
    (parseShaclReport sevenViolationReport).total = 12 ∧
    (parseShaclReport sevenViolationReport).passing = 5 ∧
    calculateIntegrity (parseShaclReport sevenViolationReport) = 0 ∧
    calculateIntegrity (parseShaclReport sevenViolationReport) ≠ 5 / 12 := by
  refine ⟨by decide, by decide, calculateIntegrity_always_zero _, ?_⟩
  rw [calculateIntegrity_always_zero]
  norm_num

/-- C3 counterexample: a run with exactly three FAIR-related violation
texts scores max(0, 1 - 3 × 0.33) = 0.01, not 0, so the claim that the
score is exactly 0 once the count reaches 3 is false. -/
theorem claim_c3_counterexample :
    ((parseShaclReport threeFairText).violations.filter isFairViolation).length = 3 ∧
    calculateFairness (parseShaclReport threeFairText) = 1 / 100 ∧
    (1 / 100 : ℚ) ≠ 0 := by
  refine ⟨by decide, ?_, by norm_num⟩
  rw [fairness_formula, show ((parseShaclReport threeFairText).violations.filter
    isFairViolation).length = 3 from by decide]
  norm_num [max_def]

/-- C3 amended: the Fairness sub-score equals
max(0, 1 - 0.33 × fairViolationCount), is monotonically non-increasing in
fairViolationCount, never negative, and is exactly 0 once the count reaches
4 or more (at exactly 3 it is 0.01). -/
theorem claim_c3_fairness_amended (p q : ParsedReport)
    (hmono : (p.violations.filter isFairViolation).length ≤
      (q.violations.filter isFairViolation).length) :
    calculateFairness p =
      max 0 (1 - ((p.violations.filter isFairViolation).length : ℚ) * (33 / 100)) ∧
    calculateFairness q ≤ calculateFairness p ∧
    (4 ≤ (p.violations.filter isFairViolation).length → calculateFairness p = 0) ∧
    0 ≤ calculateFairness p := by
  refine ⟨fairness_formula p, ?_, ?_, ?_⟩
  · rw [fairness_formula p, fairness_formula q]
    have hq : ((p.violations.filter isFairViolation).length : ℚ) ≤
        ((q.violations.filter isFairViolation).length : ℚ) := by exact_mod_cast hmono
    refine max_le_max le_rfl ?_
    nlinarith
  · intro h4
    rw [fairness_formula p]
    have hq : (4 : ℚ) ≤ ((p.violations.filter isFairViolation).length : ℚ) := by
      exact_mod_cast h4
    apply max_eq_left
    nlinarith
  · rw [fairness_formula p]
    exact le_max_left _ _

/-- C3 witness: the amended theorem applied at a report with four
FAIR-related violations. -/
theorem claim_c3_fairness_amended_witness :
    calculateFairness fourFairReport = 0 ∧ 0 ≤ calculateFairness fourFairReport := by
  have h := claim_c3_fairness_amended fourFairReport fourFairReport le_rfl
  exact ⟨h.2.2.1 (by decide), h.2.2.2⟩

/-- C4: a line of the raw report is classified as a violation marker exactly
when it contains "Constraint Violation" or "Message:"; the violation list is
the stripped matching lines, total = max(count + 5, 10), passing = total -
count, and 0 ≤ passing ≤ total for every parser output. -/
theorem claim_c4_report_parsing (t : String) :
    (parseShaclReport t).violations =
      ((pyLines t).filter (fun l =>
        strContains l "Constraint Violation" || strContains l "Message:")).map pyStrip ∧
    (parseShaclReport t).total =
      max ((((pyLines t).filter isViolationLine).length : Int) + 5) 10 ∧
    (parseShaclReport t).passing =
      (parseShaclReport t).total - ((parseShaclReport t).violations.length : Int) ∧
    0 ≤ (parseShaclReport t).passing ∧
    (parseShaclReport t).passing ≤ (parseShaclReport t).total := by
  have ht : ((parseShaclReport t).violations.length : Int) + 5 ≤
      (parseShaclReport t).total := le_max_left _ _
  have hp : (parseShaclReport t).passing =
      (parseShaclReport t).total - ((parseShaclReport t).violations.length : Int) := rfl
  refine ⟨rfl, by simp [parseShaclReport], rfl, ?_, ?_⟩ <;> omega

/-- C9: diagnostic report parsing is a deterministic function of the raw
report text alone: equal inputs give identical ConstraintDiagnostics —
same violation list, total, and passing counts. -/
theorem claim_c9_parse_deterministic (t1 t2 : String) (h : t1 = t2) :
    parseShaclReport t1 = parseShaclReport t2 ∧
    (parseShaclReport t1).violations = (parseShaclReport t2).violations ∧
    (parseShaclReport t1).total = (parseShaclReport t2).total ∧
    (parseShaclReport t1).passing = (parseShaclReport t2).passing := by
  subst h
  exact ⟨rfl, rfl, rfl, rfl⟩

/-- C9 witness: re-parsing the seven-violation report gives identical
diagnostics. -/
theorem claim_c9_parse_deterministic_witness :
    parseShaclReport sevenViolationReport = parseShaclReport sevenViolationReport ∧
    (parseShaclReport sevenViolationReport).violations =
      (parseShaclReport sevenViolationReport).violations ∧
    (parseShaclReport sevenViolationReport).total =
      (parseShaclReport sevenViolationReport).total ∧
    (parseShaclReport sevenViolationReport).passing =
      (parseShaclReport sevenViolationReport).passing :=
  claim_c9_parse_deterministic sevenViolationReport sevenViolationReport rfl

/-- C5: the overall score is the fixed weighted combination
0.4·integrity + 0.3·fairness + 0.3·fhirCompliance, it stays in [0, 1]
whenever the three sub-scores do, and every successful pipeline run
assembles its overall score with exactly this combination. -/
theorem claim_c5_overall_score (i f c : ℚ)
    (hi0 : 0 ≤ i) (hi1 : i ≤ 1) (hf0 : 0 ≤ f) (hf1 : f ≤ 1)
    (hc0 : 0 ≤ c) (hc1 : c ≤ 1) :
    calculateOverallScore i f c = (4 / 10) * i + (3 / 10) * f + (3 / 10) * c ∧
    0 ≤ calculateOverallScore i f c ∧ calculateOverallScore i f c ≤ 1 ∧
    (∀ records rawReport s, runValidation records rawReport = Except.ok s →
      s.overall = calculateOverallScore s.integrity s.fairness s.fhirCompliance) := by
  refine ⟨rfl, ?_, ?_, ?_⟩
  · unfold calculateOverallScore
    nlinarith
  · unfold calculateOverallScore
    nlinarith
  · intro records rawReport s hs
    unfold runValidation at hs
    cases hb : buildDataGraph records with
    | error e => rw [hb] at hs; cases hs
    | ok g =>
      rw [hb] at hs
      cases hs
      rfl

/-- C5 witness: the theorem applied at integrity 1/2, fairness 1,
compliance 0. -/
theorem claim_c5_overall_score_witness :
    calculateOverallScore (1/2) 1 0 =
      (4 / 10) * (1/2) + (3 / 10) * 1 + (3 / 10) * 0 ∧
    0 ≤ calculateOverallScore (1/2) 1 0 ∧ calculateOverallScore (1/2) 1 0 ≤ 1 := by
  have h := claim_c5_overall_score (1/2) 1 0 (by norm_num) (by norm_num)
    (by norm_num) (by norm_num) (by norm_num) (by norm_num)
  exact ⟨h.1, h.2.1, h.2.2.1⟩

/-- C10: a record the pydantic Evidence parser rejects scores exactly 0.0,
and the compliance computation still returns the average over all records
(the malformed record contributes 0 to the sum and 1 to the count), so one
malformed record never prevents a result. -/
theorem claim_c10_malformed_record (pre post : List FhirRecord) (r : FhirRecord)
    (h : r.parsesAsEvidence = false) :
    validateSingleResource r = 0 ∧
    validateFhirResources (pre ++ r :: post) =
      (sumScores pre + sumScores post) /
        ((pre.length : ℚ) + (post.length : ℚ) + 1) := by
  have h0 : validateSingleResource r = 0 := by
    unfold validateSingleResource
    rw [h]
    simp
  refine ⟨h0, ?_⟩
  unfold validateFhirResources
  rw [if_neg (by simp)]
  unfold sumScores
  rw [List.map_append, List.sum_append, List.map_cons, List.sum_cons, h0]
  have hl : (((pre ++ r :: post).length : ℚ)) =
      (pre.length : ℚ) + (post.length : ℚ) + 1 := by
    push_cast [List.length_append, List.length_cons]
    ring
  rw [hl]
  ring_nf

/-- C10 witness: a single rejected record yields compliance 0 without
aborting. -/
theorem claim_c10_malformed_record_witness :
    validateSingleResource malformedRecord = 0 ∧
    validateFhirResources ([] ++ malformedRecord :: []) =
      (sumScores [] + sumScores []) /
        (((List.length ([] : List FhirRecord)) : ℚ) +
          ((List.length ([] : List FhirRecord)) : ℚ) + 1) :=
  claim_c10_malformed_record [] [] malformedRecord rfl

/-- Each check contributes 0 or 1 point. -/
theorem boolScore_bounds (b : Bool) : 0 ≤ boolScore b ∧ boolScore b ≤ 1 := by
  cases b <;> simp [boolScore]

/-- Every per-record compliance score lies in [0, 1]. -/
theorem validateSingleResource_bounds (r : FhirRecord) :
    0 ≤ validateSingleResource r ∧ validateSingleResource r ≤ 1 := by
  unfold validateSingleResource
  split
  · have h1 := boolScore_bounds (pyTruthyStr r.status)
    have h2 := boolScore_bounds (hasNonemptyStatTest r)
    have h3 := boolScore_bounds (hasTruthySampleSize r)
    have h4 := boolScore_bounds (hasValidPValue r)
    have h5 := boolScore_bounds (r.resourceType == "Evidence")
    constructor <;> [linarith [h1.1, h2.1, h3.1, h4.1, h5.1];
      linarith [h1.2, h2.2, h3.2, h4.2, h5.2]]
  · norm_num

/-- The score sum is between 0 and the record count. -/
theorem sumScores_bounds (rs : List FhirRecord) :
    0 ≤ sumScores rs ∧ sumScores rs ≤ (rs.length : ℚ) := by
  induction rs with
  | nil => simp [sumScores]
  | cons r rest ih =>
    have hr := validateSingleResource_bounds r
    have hc : sumScores (r :: rest) = validateSingleResource r + sumScores rest := by
      unfold sumScores
      rw [List.map_cons, List.sum_cons]
    rw [hc]
    push_cast [List.length_cons]
    exact ⟨by linarith [hr.1, ih.1], by linarith [hr.2, ih.2]⟩

/-- The compliance average lies in [0, 1] for every record list. -/
theorem validateFhirResources_bounds (rs : List FhirRecord) :
    0 ≤ validateFhirResources rs ∧ validateFhirResources rs ≤ 1 := by
  unfold validateFhirResources
  by_cases h : rs.isEmpty
  · rw [if_pos h]
    norm_num
  · rw [if_neg h]
    have hne : rs ≠ [] := by simpa [List.isEmpty_iff] using h
    have hlen : 0 < (rs.length : ℚ) := by exact_mod_cast List.length_pos.2 hne
    have hs := sumScores_bounds rs
    refine ⟨div_nonneg hs.1 (le_of_lt hlen), ?_⟩
    rw [div_le_one hlen]
    exact hs.2

/-- C2 counterexample: a record with status, statistical test, statistic
block, identifier and license but no sample size and no p-value.  The
spec's four checks would give it a full score of 1; the source's five
checks (status, statisticalTest, sampleSize, pValue in [0, 1],
resourceType) give 3/5. -/
theorem claim_c2_counterexample :
    validateFhirResources [c2Record] = 3 / 5 ∧
    specResourceModelCompliance [c2Record] = 1 ∧
    (3 / 5 : ℚ) ≠ 1 := by
  have hb1 : pyTruthyStr c2Record.status = true := by decide
  have hb2 : hasNonemptyStatTest c2Record = true := by decide
  have hb3 : hasTruthySampleSize c2Record = false := by decide
  have hb4 : hasValidPValue c2Record = false := by decide
  have hb5 : (c2Record.resourceType == "Evidence") = true := by decide
  have hpe : c2Record.parsesAsEvidence = true := rfl
  refine ⟨?_, ?_, by norm_num⟩
  · unfold validateFhirResources sumScores
    rw [if_neg (by simp)]
    simp [validateSingleResource, hpe, hb1, hb2, hb3, hb4, hb5, boolScore]
    norm_num
  · unfold specResourceModelCompliance
    rw [if_neg (by simp)]
    simp [specSingleResourceChecks, boolScore, c2Record, baseRecord]
    norm_num

/-- C2 amended: the Resource-Model Compliance sub-score is the average over
records of the fraction of these five per-record checks passed — a truthy
declared status, a non-empty statisticalTest list, a sampleSize with a
truthy value, a pValue whose value lies in [0, 1], and resourceType equal
to "Evidence" (a record the pydantic parser rejects scores 0); the score is
0 for an empty record list with no division by zero, and always lies in
[0, 1]. -/
theorem claim_c2_compliance_amended (rs : List FhirRecord) (hne : rs ≠ []) :
    validateFhirResources [] = 0 ∧
    validateFhirResources rs = sumScores rs / (rs.length : ℚ) ∧
    (∀ r, r.parsesAsEvidence = true →
      validateSingleResource r =
        (boolScore (pyTruthyStr r.status) + boolScore (hasNonemptyStatTest r) +
          boolScore (hasTruthySampleSize r) + boolScore (hasValidPValue r) +
          boolScore (r.resourceType == "Evidence")) / 5) ∧
    (∀ r, 0 ≤ validateSingleResource r ∧ validateSingleResource r ≤ 1) ∧
    0 ≤ validateFhirResources rs ∧ validateFhirResources rs ≤ 1 := by
  refine ⟨rfl, ?_, ?_, validateSingleResource_bounds,
    (validateFhirResources_bounds rs).1, (validateFhirResources_bounds rs).2⟩
  · unfold validateFhirResources
    rw [if_neg (by simpa [List.isEmpty_iff] using hne)]
  · intro r hr
    unfold validateSingleResource
    rw [hr]
    simp

/-- C2 witness: the amended theorem applied at the one-record list. -/
theorem claim_c2_compliance_amended_witness :
    validateFhirResources [] = 0 ∧
    0 ≤ validateFhirResources [c2Record] ∧ validateFhirResources [c2Record] ≤ 1 := by
  have h := claim_c2_compliance_amended [c2Record] (by simp)
  exact ⟨h.1, h.2.2.2.2.1, h.2.2.2.2.2⟩

/-- C6 counterexample: submitting the empty record list with the marker-free
report of a conforming run returns overall 3/10 (integrity 0 by the lookup
mismatch, fairness 1, compliance 0), not the claimed overall score of 0;
the diagnostics total is the floor of 10 as claimed. -/
theorem claim_c6_counterexample :
    runValidation [] conformsReport =
      Except.ok { integrity := 0, fairness := 1, fhirCompliance := 0, overall := 3 / 10 } ∧
    (3 / 10 : ℚ) ≠ 0 ∧
    (parseShaclReport conformsReport).total = 10 := by
  have hI := calculateIntegrity_always_zero (parseShaclReport conformsReport)
  have hc : ((parseShaclReport conformsReport).violations.filter
      isFairViolation).length = 0 := by decide
  have hF : calculateFairness (parseShaclReport conformsReport) = 1 := by
    rw [fairness_formula, hc]
    norm_num [max_def]
  have hC : validateFhirResources ([] : List FhirRecord) = 0 := rfl
  refine ⟨?_, by norm_num, by decide⟩
  unfold runValidation
  rw [show buildDataGraph ([] : List FhirRecord) = Except.ok [] from rfl]
  simp only [hI, hF, hC]
  norm_num [calculateOverallScore]

/-- C6 amended: an empty input record list makes the engine return without
raising; Resource-Model Compliance is 0, and for any raw report without
violation-marker lines the diagnostics total is the floor of 10 and the
scores are integrity 0 (key-lookup mismatch), fairness 1, compliance 0,
overall 0.4·0 + 0.3·1 + 0.3·0 = 3/10 — not 0. -/
theorem claim_c6_empty_records_amended (t : String)
    (h : (pyLines t).all (fun l => !(isViolationLine l)) = true) :
    (∃ s, runValidation [] t = Except.ok s) ∧
    validateFhirResources [] = 0 ∧
    runValidation [] t =
      Except.ok { integrity := 0, fairness := 1, fhirCompliance := 0, overall := 3 / 10 } ∧
    (parseShaclReport t).total = 10 := by
  have hfil : (pyLines t).filter isViolationLine = [] := by
    rw [List.filter_eq_nil_iff]
    intro a ha
    have ha2 := List.all_eq_true.mp h a ha
    simp at ha2
    simp [ha2]
  have hv : (parseShaclReport t).violations = [] := by
    simp [parseShaclReport, hfil]
  have htot : (parseShaclReport t).total = 10 := by
    simp [parseShaclReport, hfil]
  have hI := calculateIntegrity_always_zero (parseShaclReport t)
  have hF : calculateFairness (parseShaclReport t) = 1 := by
    rw [fairness_formula, hv]
    norm_num [max_def, List.filter_nil]
  have hC : validateFhirResources ([] : List FhirRecord) = 0 := rfl
  have hrun : runValidation [] t =
      Except.ok { integrity := 0, fairness := 1, fhirCompliance := 0, overall := 3 / 10 } := by
    unfold runValidation
    rw [show buildDataGraph ([] : List FhirRecord) = Except.ok [] from rfl]
    simp only [hI, hF, hC]
    norm_num [calculateOverallScore]
  exact ⟨⟨_, hrun⟩, hC, hrun, htot⟩

/-- C6 witness: the amended theorem applied at the conforming report. -/
theorem claim_c6_empty_records_amended_witness :
    runValidation [] conformsReport =
      Except.ok { integrity := 0, fairness := 1, fhirCompliance := 0, overall := 3 / 10 } ∧
    (parseShaclReport conformsReport).total = 10 := by
  have h := claim_c6_empty_records_amended conformsReport (by decide)
  exact ⟨h.2.2.1, h.2.2.2⟩

/-- Every triple of the license list carries the property has_license. -/
theorem licenseTriples_pred (i : Nat) (r : FhirRecord) :
    ∀ tr ∈ licenseTriples i r, tr.pred = "has_license" := by
  unfold licenseTriples
  intro tr htr
  rcases hL : r.license with _ | s <;> rw [hL] at htr <;> dsimp only at htr
  · cases htr
  · split_ifs at htr with hs
    · rw [List.mem_singleton] at htr
      rw [htr]
    · cases htr

/-- Every triple of the identifier list carries the property
has_identifier. -/
theorem identifierValueTriples_pred (i : Nat) (idv : Option String) :
    ∀ tr ∈ identifierValueTriples i idv, tr.pred = "has_identifier" := by
  unfold identifierValueTriples
  intro tr htr
  rcases idv with _ | s <;> dsimp only at htr
  · cases htr
  · split_ifs at htr with hs
    · rw [List.mem_singleton] at htr
      rw [htr]
    · cases htr

/-- Every triple of the version list carries the property has_version. -/
theorem versionTriples_pred (i : Nat) (r : FhirRecord) :
    ∀ tr ∈ versionTriples i r, tr.pred = "has_version" := by
  unfold versionTriples
  intro tr htr
  rcases hV : r.version with _ | s <;> rw [hV] at htr <;> dsimp only at htr
  · cases htr
  · split_ifs at htr with hs
    · rw [List.mem_singleton] at htr
      rw [htr]
    · cases htr

/-- FAIR metadata never adds a type assertion. -/
theorem addFairMetadata_no_type (i : Nat) (r : FhirRecord) (g : List Triple)
    (hg : addFairMetadata i r = Except.ok g) :
    ∀ tr ∈ g, tr.pred ≠ "rdf:type" := by
  unfold addFairMetadata at hg
  rcases hiv : identFirstValue r with e | idv <;> rw [hiv] at hg <;> dsimp only at hg
  · cases hg
  · have hg2 : licenseTriples i r ++ identifierValueTriples i idv ++
        versionTriples i r = g := by injection hg
    subst hg2
    intro tr htr
    rcases List.mem_append.mp htr with h12 | hver
    · rcases List.mem_append.mp h12 with hl | hid
      · rw [licenseTriples_pred i r tr hl]
        decide
      · rw [identifierValueTriples_pred i idv tr hid]
        decide
    · rw [versionTriples_pred i r tr hver]
      decide

/-- C7 counterexample: a record whose test-type code "anova" is unknown and
which carries no FAIR metadata contributes no triple at all, so the data
graph contains nothing mentioning its subject — the record is dropped from
the graph, contradicting the claim that a subject node is always produced. -/
theorem claim_c7_counterexample :
    buildDataGraph [unknownTypeRecord] = Except.ok [] ∧
    Except.map (fun g => g.any (fun tr => tr.subj == 0))
      (buildDataGraph [unknownTypeRecord]) = Except.ok false :=
  ⟨rfl, rfl⟩

/-- C7 amended: a record with an unrecognized test-type identifier gets no
ontology class assertion and no type-specific triples — its contribution to
the data graph is exactly its FAIR metadata triples, so it appears in the
graph only when a truthy license, first identifier value, or version is
present; with none of those the record contributes no triples at all. -/
theorem claim_c7_unknown_type_amended (i : Nat) (r : FhirRecord)
    (et : Option String) (h : evidenceType r = Except.ok et)
    (h1 : et ≠ some "t-test") (h2 : et ≠ some "chi-square")
    (h3 : et ≠ some "logistic-regression") (h4 : et ≠ some "kaplan-meier") :
    recordTriples i r = addFairMetadata i r ∧
    (r.license = none → r.identifier = none → r.version = none →
      recordTriples i r = Except.ok []) ∧
    (∀ g, recordTriples i r = Except.ok g → ∀ tr ∈ g, tr.pred ≠ "rdf:type") := by
  have htyped : typedTriples i r et = Except.ok [] := by
    unfold typedTriples
    rw [if_neg h1, if_neg h2, if_neg h3, if_neg h4]
  have hmain : recordTriples i r = addFairMetadata i r := by
    unfold recordTriples
    rw [h]
    dsimp only
    rw [htyped]
    dsimp only
    cases hf : addFairMetadata i r with
    | error e => rfl
    | ok fair => simp
  refine ⟨hmain, ?_, ?_⟩
  · intro hlic hid hver
    have hiv : identFirstValue r = Except.ok none := by
      unfold identFirstValue
      rw [hid]
    rw [hmain]
    unfold addFairMetadata
    rw [hiv]
    dsimp only
    unfold licenseTriples versionTriples identifierValueTriples
    rw [hlic, hver]
    simp
  · intro g hg tr htr
    rw [hmain] at hg
    exact addFairMetadata_no_type i r g hg tr htr

/-- C7 witness: the amended theorem applied at the "anova" record with no
FAIR metadata. -/
theorem claim_c7_unknown_type_amended_witness :
    recordTriples 0 unknownTypeRecord = Except.ok [] :=
  (claim_c7_unknown_type_amended 0 unknownTypeRecord (some "anova") rfl
    (by decide) (by decide) (by decide) (by decide)).2.1 rfl rfl rfl

/-- C8: a missing SHACL shape schema makes initialization fail with a
FileNotFoundError, and no validation run can return a result unless the
schema resource existed at startup. -/
theorem claim_c8_schema_required (ex : Bool) (records : List FhirRecord)
    (t : String) :
    (ex = false → serveValidation ex records t =
      Except.error (PyErr.fileNotFound
        "SHACL rules not found at app/validator/shacl_rules.ttl")) ∧
    (∀ s, serveValidation ex records t = Except.ok s → ex = true) := by
  constructor
  · intro h
    subst h
    rfl
  · intro s hs
    cases ex
    · rw [show serveValidation false records t = Except.error (PyErr.fileNotFound
        "SHACL rules not found at app/validator/shacl_rules.ttl") from rfl] at hs
      cases hs
    · rfl

/-- C8 witness: with the schema file absent, the run is refused. -/
theorem claim_c8_schema_required_witness :
    serveValidation false [] "" =
      Except.error (PyErr.fileNotFound
        "SHACL rules not found at app/validator/shacl_rules.ttl") :=
  (claim_c8_schema_required false [] "").1 rfl

end OCEV
